import Mathlib

/-!
Verification of the nt8sdk risk-control core: a shallow embedding of
`BreakevenConfig` / `BreakevenManager` (src/python/nt8/advanced_strategy.py)
and `RiskLimits` / `PositionSizer` / `RiskManager`
(src/python/nt8/risk_management.py).

Python floats are modelled as rationals (`ℚ`), Python ints as `ℤ` (or `ℕ`
for counters that start at 0 and only grow), Python `None` as `Option`,
and exceptions as `Except String`.  Rational division is total in Lean
(`x / 0 = 0`); every theorem below that divides only does so under
hypotheses that keep the divisor nonzero, matching the Python code paths
that do not raise `ZeroDivisionError`.  Wall-clock reads
(`datetime.now()`) are passed in explicitly as rational timestamps.
Callback side effects (`on_limit_reached`, `on_risk_violation`) are
modelled as optional event values in the return type.  `print` calls and
the `step_activation_times` statistics dictionary (wall-clock data read by
nothing) are omitted.
-/

/-- `int()` in Python: truncation toward zero. -/
def pyInt (q : ℚ) : ℤ := if 0 ≤ q then ⌊q⌋ else ⌈q⌉

/-- Position side; the source uses the strings 'LONG' / 'SHORT'. -/
inductive Side where
  | long : Side
  | short : Side
deriving DecidableEq, Repr

/-- `BreakevenConfig` after a successful `__init__`.  `tick_size_raw`
models the `_tick_size` attribute, which may be `None` (deferred lookup). -/
structure BreakevenConfig where
  num_steps : ℕ
  profit_targets : List ℚ
  breakeven_offsets : List ℚ
  trailing_ticks : ℤ
  tick_size_raw : Option ℚ
  enabled : Bool
  instrument : Option String
deriving DecidableEq, Repr

/-- Default profit targets `[7.0, 10.0, 15.0]`. -/
def defaultTargets : List ℚ := [7, 10, 15]

/-- Default breakeven offsets `[0.0, 0.0, 0.0]`. -/
def defaultOffsets : List ℚ := [0, 0, 0]

/-- The ascending-order loop of `BreakevenConfig.__init__`: succeeds iff
each adjacent pair satisfies `targets[i] < targets[i+1]`. -/
def ascendingOK : List ℚ → Bool
  | a :: b :: t => decide (a < b) && ascendingOK (b :: t)
  | _ => true

/-- Last stage of `BreakevenConfig.__init__`: the ascending-order check. -/
def mkStage3 (n : ℕ) (tgts os : List ℚ) (tt : ℤ) (tk : Option ℚ)
    (en : Bool) (instr : Option String) : Except String BreakevenConfig :=
  if ascendingOK tgts then
    Except.ok ⟨n, tgts, os, tt, tk, en, instr⟩
  else
    Except.error "profit_targets must be in ascending order"

/-- Offsets stage of `BreakevenConfig.__init__`: default or length check. -/
def mkStage2 (n : ℕ) (tgts : List ℚ) (breakeven_offsets : Option (List ℚ))
    (tt : ℤ) (tk : Option ℚ) (en : Bool) (instr : Option String) :
    Except String BreakevenConfig :=
  match breakeven_offsets with
  | some os =>
    if os.length ≠ n then
      Except.error ("breakeven_offsets must have " ++ toString (n : ℤ) ++ " elements")
    else mkStage3 n tgts os tt tk en instr
  | none => mkStage3 n tgts (defaultOffsets.take n) tt tk en instr

/-- `BreakevenConfig.__init__`: validates `num_steps` in 1..3, list lengths,
and ascending profit targets; raises `ValueError` on violation.  Note that
the constructor stores `tick_size` unchecked (validation happens only in
`set_tick_size`). -/
def mkBreakevenConfig (num_steps : ℤ) (profit_targets breakeven_offsets : Option (List ℚ))
    (trailing_ticks : ℤ) (tick_size : Option ℚ) (enabled : Bool)
    (instrument : Option String) : Except String BreakevenConfig :=
  if num_steps < 1 ∨ 3 < num_steps then
    Except.error "num_steps must be between 1 and 3"
  else
    match profit_targets with
    | some ts =>
      if ts.length ≠ num_steps.toNat then
        Except.error ("profit_targets must have " ++ toString num_steps ++ " elements")
      else mkStage2 num_steps.toNat ts breakeven_offsets trailing_ticks tick_size enabled instrument
    | none =>
      mkStage2 num_steps.toNat (defaultTargets.take num_steps.toNat)
        breakeven_offsets trailing_ticks tick_size enabled instrument

/-- `BreakevenConfig.set_tick_size`: rejects non-positive tick sizes. -/
def set_tick_size (c : BreakevenConfig) (tick_size : ℚ) : Except String BreakevenConfig :=
  if tick_size ≤ 0 then Except.error "tick_size must be positive"
  else Except.ok { c with tick_size_raw := some tick_size }

/-- The error message of the `tick_size` property when `_tick_size is None`. -/
def tickSizeMsg : String := "Tick size not set. Call set_tick_size() or provide in constructor"

/-- Did an `Except` computation succeed (i.e. no exception raised)? -/
def isOkE {α : Type} : Except String α → Bool
  | Except.ok _ => true
  | Except.error _ => false

/-- `BreakevenManager` mutable state. -/
structure BState where
  config : BreakevenConfig
  entry_price : Option ℚ
  position_side : Option Side
  current_stop_loss : Option ℚ
  initial_stop_loss : Option ℚ
  current_step : ℕ
  highest_price_long : Option ℚ
  lowest_price_short : Option ℚ
  stop_adjustments : ℕ
deriving DecidableEq, Repr

/-- `BreakevenManager.__init__(config)`. -/
def mkManager (cfg : BreakevenConfig) : BState :=
  ⟨cfg, none, none, none, none, 0, none, none, 0⟩

/-- `BreakevenManager.reset`. -/
def reset (s : BState) : BState :=
  { config := s.config, entry_price := none, position_side := none,
    current_stop_loss := none, initial_stop_loss := none, current_step := 0,
    highest_price_long := none, lowest_price_short := none, stop_adjustments := 0 }

/-- `BreakevenManager.initialize_position(entry_price, stop_loss, is_long)`. -/
def init_position (s : BState) (entry_price stop_loss : ℚ) ( is_long : Bool) : BState :=
  let r := reset s
  { r with
    entry_price := some entry_price,
    initial_stop_loss := some stop_loss,
    current_stop_loss := some stop_loss,
    position_side := some (if is_long then Side.long else Side.short),
    highest_price_long := if is_long then some entry_price else none,
    lowest_price_short := if is_long then none else some entry_price }

/-- `if highest is None or price > highest: highest = price`. -/
def trackHigh (h : Option ℚ) (p : ℚ) : ℚ :=
  match h with
  | none => p
  | some x => if p > x then p else x

/-- `if lowest is None or price < lowest: lowest = price`. -/
def trackLow (l : Option ℚ) (p : ℚ) : ℚ :=
  match l with
  | none => p
  | some x => if p < x then p else x

/-- `profit` as computed inside `_update_long`. -/
def profitLongOf (s : BState) (p : ℚ) : ℚ :=
  match s.entry_price with
  | some e => p - e
  | none => 0

/-- `profit` as computed inside `_update_short`. -/
def profitShortOf (s : BState) (p : ℚ) : ℚ :=
  match s.entry_price with
  | some e => e - p
  | none => 0

/-- Profit of the current price relative to entry, respecting the side. -/
def profitAt (s : BState) (p : ℚ) : ℚ :=
  match s.position_side with
  | some Side.long => profitLongOf s p
  | some Side.short => profitShortOf s p
  | none => 0

/-- The tail of `_update_long` / `_update_short`: commit `new_stop` if it is
not `None` and differs from the persisted stop. -/
def applyNewStop (s : BState) (ns : Option ℚ) : Except String (Option ℚ) × BState :=
  match ns with
  | none => (Except.ok none, s)
  | some v =>
    if some v = s.current_stop_loss then (Except.ok none, s)
    else (Except.ok (some v),
      { s with current_stop_loss := some v, stop_adjustments := s.stop_adjustments + 1 })

/-- `BreakevenManager._update_long(current_price)`.  The exception value
models the `ValueError` raised by the `tick_size` property (reached via
`get_trailing_distance`) when `_tick_size is None`; the paired state is the
object state at the moment of the raise. -/
def update_long (s : BState) (p : ℚ) : Except String (Option ℚ) × BState :=
  let high := trackHigh s.highest_price_long p
  let profit := profitLongOf s p
  -- step-activation block; the offset index `current_step - 1` is taken
  -- after the increment, i.e. it equals the pre-increment `current_step`
  let sn :=
    if s.current_step < s.config.num_steps ∧
        profit ≥ s.config.profit_targets.getD s.current_step 0 then
      (s.current_step + 1,
        match s.entry_price with
        | some e => some (e + s.config.breakeven_offsets.getD s.current_step 0)
        | none => (none : Option ℚ))
    else (s.current_step, none)
  let s1 : BState := { s with highest_price_long := some high, current_step := sn.1 }
  if 0 < sn.1 then
    match s.config.tick_size_raw with
    | none => (Except.error tickSizeMsg, s1)
    | some ts =>
      let tstop0 := high - (s.config.trailing_ticks : ℚ) * ts
      let bfloor :=
        match s.entry_price with
        | some e => e + s.config.breakeven_offsets.getD (sn.1 - 1) 0
        | none => (0 : ℚ)
      let tstop := max tstop0 bfloor
      let pass1 : Bool :=
        match s.current_stop_loss with
        | none => true
        | some c => decide (tstop > c)
      let pass2 : Bool :=
        match sn.2 with
        | none => true
        | some n => decide (tstop > n)
      applyNewStop s1 (if pass1 && pass2 then some tstop else sn.2)
  else applyNewStop s1 sn.2

/-- `BreakevenManager._update_short(current_price)`. -/
def update_short (s : BState) (p : ℚ) : Except String (Option ℚ) × BState :=
  let low := trackLow s.lowest_price_short p
  let profit := profitShortOf s p
  let sn :=
    if s.current_step < s.config.num_steps ∧
        profit ≥ s.config.profit_targets.getD s.current_step 0 then
      (s.current_step + 1,
        match s.entry_price with
        | some e => some (e - s.config.breakeven_offsets.getD s.current_step 0)
        | none => (none : Option ℚ))
    else (s.current_step, none)
  let s1 : BState := { s with lowest_price_short := some low, current_step := sn.1 }
  if 0 < sn.1 then
    match s.config.tick_size_raw with
    | none => (Except.error tickSizeMsg, s1)
    | some ts =>
      let tstop0 := low + (s.config.trailing_ticks : ℚ) * ts
      let bceil :=
        match s.entry_price with
        | some e => e - s.config.breakeven_offsets.getD (sn.1 - 1) 0
        | none => (0 : ℚ)
      let tstop := min tstop0 bceil
      let pass1 : Bool :=
        match s.current_stop_loss with
        | none => true
        | some c => decide (tstop < c)
      let pass2 : Bool :=
        match sn.2 with
        | none => true
        | some n => decide (tstop < n)
      applyNewStop s1 (if pass1 && pass2 then some tstop else sn.2)
  else applyNewStop s1 sn.2

/-- `BreakevenManager.update(current_price)`. -/
def update (s : BState) (p : ℚ) : Except String (Option ℚ) × BState :=
  if s.config.enabled = false ∨ s.entry_price = none then (Except.ok none, s)
  else
    match s.position_side with
    | some Side.long => update_long s p
    | some Side.short => update_short s p
    | none => (Except.ok none, s)

/-- Run a sequence of `update` calls, keeping the final state. -/
def runPrices (s : BState) (ps : List ℚ) : BState :=
  ps.foldl (fun t p => (update t p).2) s

/-- The subsequence of non-`None` stops returned by a sequence of
`update` calls (calls that raise contribute no value). -/
def stopsOf (s : BState) : List ℚ → List ℚ
  | [] => []
  | p :: ps =>
    match update s p with
    | (Except.ok (some v), s') => v :: stopsOf s' ps
    | (_, s') => stopsOf s' ps

/-- The profit-targets list actually stored by the constructor. -/
def chosenTargets (n : ℕ) (pt : Option (List ℚ)) : List ℚ :=
  match pt with
  | some l => l
  | none => defaultTargets.take n

lemma mkStage3_ok_iff (n : ℕ) (tg os : List ℚ) (tt : ℤ) (tk : Option ℚ)
    (en : Bool) (i : Option String) :
    isOkE (mkStage3 n tg os tt tk en i) = true ↔ ascendingOK tg = true := by
  unfold mkStage3
  split <;> simp_all [isOkE]

lemma mkStage2_ok_iff (n : ℕ) (tg : List ℚ) (bo : Option (List ℚ)) (tt : ℤ)
    (tk : Option ℚ) (en : Bool) (i : Option String) :
    isOkE (mkStage2 n tg bo tt tk en i) = true ↔
      ((∀ l, bo = some l → l.length = n) ∧ ascendingOK tg = true) := by
  cases bo with
  | none => simp [mkStage2, mkStage3_ok_iff]
  | some os =>
    by_cases h : os.length = n
    · simp [mkStage2, h, mkStage3_ok_iff]
    · simp [mkStage2, h, isOkE]

/-- C1: the claim "for every BreakevenConfig ... the subsequence of non-None
values returned by update is non-decreasing" fails on the code.  With the
constructor-accepted config num_steps=2, profit_targets=[1,5],
breakeven_offsets=[0,0], trailing_ticks=1, tick_size=1, after
initialize_position(100, 90, is_long=True) the prices 110 then 105 make
`update` return 109 and then 100: the stop regresses when step 2 activates
(its breakeven stop 100 is below the persisted trailing stop 109, and the
final guard in `_update_long` only checks `new_stop != current_stop_loss`,
not direction), contradicting the source's own comment
"Only move stop up, never down". -/
theorem breakeven_long_stop_regression :
    mkBreakevenConfig 2 (some [1, 5]) (some [0, 0]) 1 (some 1) true none
      = Except.ok ⟨2, [1, 5], [0, 0], 1, some 1, true, none⟩
    ∧ stopsOf (init_position (mkManager ⟨2, [1, 5], [0, 0], 1, some 1, true, none⟩) 100 90 true)
        [110, 105] = [109, 100]
    ∧ ¬ List.Chain' (fun a b : ℚ => a ≤ b)
        (stopsOf (init_position (mkManager ⟨2, [1, 5], [0, 0], 1, some 1, true, none⟩) 100 90 true)
          [110, 105]) := by
  have h1 : update (init_position (mkManager ⟨2, [1, 5], [0, 0], 1, some 1, true, none⟩) 100 90 true) 110
      = (Except.ok (some 109),
         ⟨⟨2, [1, 5], [0, 0], 1, some 1, true, none⟩, some 100, some Side.long,
          some 109, some 90, 1, some 110, none, 1⟩) := by
    norm_num [update, update_long, init_position, mkManager, reset, trackHigh,
      profitLongOf, applyNewStop]
    decide
  have h2 : update (⟨⟨2, [1, 5], [0, 0], 1, some 1, true, none⟩, some 100, some Side.long,
        some 109, some 90, 1, some 110, none, 1⟩ : BState) 105
      = (Except.ok (some 100),
         ⟨⟨2, [1, 5], [0, 0], 1, some 1, true, none⟩, some 100, some Side.long,
          some 100, some 90, 2, some 110, none, 2⟩) := by
    norm_num [update, update_long, init_position, mkManager, reset, trackHigh,
      profitLongOf, applyNewStop]
    decide
  have hs : stopsOf (init_position (mkManager ⟨2, [1, 5], [0, 0], 1, some 1, true, none⟩) 100 90 true)
      [110, 105] = [109, 100] := by
    simp only [stopsOf, h1, h2]
  refine ⟨by rfl, hs, ?_⟩
  rw [hs]
  norm_num [List.chain'_cons, List.chain'_singleton]

/-- C5 (corrected): the claim says a non-positive tick size raises at
construction time, but `BreakevenConfig.__init__` stores `tick_size`
without any check: construction with tick_size = -1 succeeds. -/
theorem nonpositive_tick_size_accepted_at_construction :
    isOkE (mkBreakevenConfig 1 (some [5]) (some [0]) 2 (some (-1)) true none) = true := by
  decide

/-- C5 (amended): `BreakevenConfig.__init__` raises exactly when num_steps
is outside [1,3], a supplied list has the wrong length, or the stored
profit targets are not strictly ascending; a non-positive tick size is
instead rejected by `set_tick_size` (the constructor does not check it). -/
theorem config_error_characterization :
    (∀ (num_steps : ℤ) (pt bo : Option (List ℚ)) (tt : ℤ) (tk : Option ℚ)
        (en : Bool) (instr : Option String),
      isOkE (mkBreakevenConfig num_steps pt bo tt tk en instr) = true ↔
        (1 ≤ num_steps ∧ num_steps ≤ 3 ∧
         (∀ l, pt = some l → l.length = num_steps.toNat) ∧
         (∀ l, bo = some l → l.length = num_steps.toNat) ∧
         ascendingOK (chosenTargets num_steps.toNat pt) = true)) ∧
    (∀ (c : BreakevenConfig) (t : ℚ), isOkE (set_tick_size c t) = true ↔ 0 < t) := by
  constructor
  · intro ns pt bo tt tk en instr
    unfold mkBreakevenConfig
    split
    · rename_i hrange
      simp only [isOkE]
      constructor
      · intro h
        cases h
      · rintro ⟨h1, h2, -⟩
        omega
    · rename_i hrange
      have hns : 1 ≤ ns ∧ ns ≤ 3 := by omega
      cases pt with
      | none =>
        simp [mkStage2_ok_iff, chosenTargets, hns.1, hns.2]
      | some ts =>
        by_cases hlen : ts.length = ns.toNat
        · simp [hlen, mkStage2_ok_iff, chosenTargets, hns.1, hns.2]
        · simp [hlen, isOkE]
  · intro c t
    unfold set_tick_size
    split <;> rename_i h <;> simp [isOkE] <;> linarith

/-- C5 witness: a concrete run of the characterization — num_steps=2 with
correctly sized ascending lists constructs, and set_tick_size accepts 1/4. -/
theorem config_error_characterization_witness :
    (isOkE (mkBreakevenConfig 2 (some [7, 10]) (some [0, 2]) 2 none true none) = true ↔
      (1 ≤ (2 : ℤ) ∧ (2 : ℤ) ≤ 3 ∧
       (∀ l, some [(7 : ℚ), 10] = some l → l.length = (2 : ℤ).toNat) ∧
       (∀ l, some [(0 : ℚ), 2] = some l → l.length = (2 : ℤ).toNat) ∧
       ascendingOK (chosenTargets (2 : ℤ).toNat (some [7, 10])) = true)) ∧
    (∀ (t : ℚ), isOkE (set_tick_size ⟨2, [7, 10], [0, 2], 2, none, true, none⟩ t) = true ↔ 0 < t) :=
  ⟨config_error_characterization.1 2 (some [7, 10]) (some [0, 2]) 2 none true none,
   fun t => config_error_characterization.2 ⟨2, [7, 10], [0, 2], 2, none, true, none⟩ t⟩

/-- C8: `update` called on a freshly constructed manager, or on any
manager after `reset()`, returns None and leaves the state unchanged
(Idle), for every price. -/
theorem update_noop_when_idle :
    (∀ (cfg : BreakevenConfig) (p : ℚ), update (mkManager cfg) p = (Except.ok none, mkManager cfg)) ∧
    (∀ (s : BState) (p : ℚ), update (reset s) p = (Except.ok none, reset s)) := by
  constructor
  · intro cfg p
    simp [update, mkManager]
  · intro s p
    simp [update, reset]

lemma applyNewStop_step (t : BState) (ns : Option ℚ) :
    (applyNewStop t ns).2.current_step = t.current_step := by
  unfold applyNewStop
  cases ns with
  | none => rfl
  | some v =>
    dsimp only
    split <;> rfl

lemma applyNewStop_config (t : BState) (ns : Option ℚ) :
    (applyNewStop t ns).2.config = t.config := by
  unfold applyNewStop
  cases ns with
  | none => rfl
  | some v =>
    dsimp only
    split <;> rfl

lemma update_long_step (s : BState) (p : ℚ) :
    (update_long s p).2.current_step = s.current_step ∨
    ((update_long s p).2.current_step = s.current_step + 1 ∧
     s.current_step < s.config.num_steps ∧
     s.config.profit_targets.getD s.current_step 0 ≤ profitLongOf s p) := by
  by_cases hact : s.current_step < s.config.num_steps ∧
      profitLongOf s p ≥ s.config.profit_targets.getD s.current_step 0
  · right
    refine ⟨?_, hact.1, hact.2⟩
    simp only [update_long, if_pos hact]
    cases htk : s.config.tick_size_raw <;>
      simp [htk, applyNewStop_step]
  · left
    simp only [update_long, if_neg hact]
    by_cases hz : 0 < s.current_step
    · cases htk : s.config.tick_size_raw <;>
        simp [htk, hz, applyNewStop_step]
    · simp [hz, applyNewStop_step]

lemma update_short_step (s : BState) (p : ℚ) :
    (update_short s p).2.current_step = s.current_step ∨
    ((update_short s p).2.current_step = s.current_step + 1 ∧
     s.current_step < s.config.num_steps ∧
     s.config.profit_targets.getD s.current_step 0 ≤ profitShortOf s p) := by
  by_cases hact : s.current_step < s.config.num_steps ∧
      profitShortOf s p ≥ s.config.profit_targets.getD s.current_step 0
  · right
    refine ⟨?_, hact.1, hact.2⟩
    simp only [update_short, if_pos hact]
    cases htk : s.config.tick_size_raw <;>
      simp [htk, applyNewStop_step]
  · left
    simp only [update_short, if_neg hact]
    by_cases hz : 0 < s.current_step
    · cases htk : s.config.tick_size_raw <;>
        simp [htk, hz, applyNewStop_step]
    · simp [hz, applyNewStop_step]

lemma update_long_config (s : BState) (p : ℚ) :
    (update_long s p).2.config = s.config := by
  by_cases hact : s.current_step < s.config.num_steps ∧
      profitLongOf s p ≥ s.config.profit_targets.getD s.current_step 0
  · simp only [update_long, if_pos hact]
    cases htk : s.config.tick_size_raw <;>
      simp [htk, applyNewStop_config]
  · simp only [update_long, if_neg hact]
    by_cases hz : 0 < s.current_step
    · cases htk : s.config.tick_size_raw <;>
        simp [htk, hz, applyNewStop_config]
    · simp [hz, applyNewStop_config]

lemma update_short_config (s : BState) (p : ℚ) :
    (update_short s p).2.config = s.config := by
  by_cases hact : s.current_step < s.config.num_steps ∧
      profitShortOf s p ≥ s.config.profit_targets.getD s.current_step 0
  · simp only [update_short, if_pos hact]
    cases htk : s.config.tick_size_raw <;>
      simp [htk, applyNewStop_config]
  · simp only [update_short, if_neg hact]
    by_cases hz : 0 < s.current_step
    · cases htk : s.config.tick_size_raw <;>
        simp [htk, hz, applyNewStop_config]
    · simp [hz, applyNewStop_config]

lemma update_step (s : BState) (p : ℚ) :
    (update s p).2.current_step = s.current_step ∨
    ((update s p).2.current_step = s.current_step + 1 ∧
     s.current_step < s.config.num_steps ∧
     s.config.profit_targets.getD s.current_step 0 ≤ profitAt s p) := by
  by_cases hguard : s.config.enabled = false ∨ s.entry_price = none
  · left
    simp [update, hguard]
  · rw [update, if_neg hguard]
    cases hside : s.position_side with
    | none => left; rfl
    | some sd =>
      cases sd with
      | long =>
        rcases update_long_step s p with h | ⟨h1, h2, h3⟩
        · left; exact h
        · right; exact ⟨h1, h2, by simpa [profitAt, hside] using h3⟩
      | short =>
        rcases update_short_step s p with h | ⟨h1, h2, h3⟩
        · left; exact h
        · right; exact ⟨h1, h2, by simpa [profitAt, hside] using h3⟩

lemma update_config (s : BState) (p : ℚ) :
    (update s p).2.config = s.config := by
  by_cases hguard : s.config.enabled = false ∨ s.entry_price = none
  · simp [update, hguard]
  · rw [update, if_neg hguard]
    cases hside : s.position_side with
    | none => rfl
    | some sd =>
      cases sd with
      | long => exact update_long_config s p
      | short => exact update_short_config s p

lemma update_step_bound (s : BState) (p : ℚ) (h : s.current_step ≤ s.config.num_steps) :
    (update s p).2.current_step ≤ s.config.num_steps := by
  rcases update_step s p with heq | ⟨h1, h2, -⟩
  · rw [heq]; exact h
  · rw [h1]; exact Nat.succ_le_of_lt h2

lemma runPrices_nil (s : BState) : runPrices s [] = s := rfl

lemma runPrices_cons (s : BState) (p : ℚ) (ps : List ℚ) :
    runPrices s (p :: ps) = runPrices (update s p).2 ps := rfl

lemma runPrices_config (s : BState) (ps : List ℚ) :
    (runPrices s ps).config = s.config := by
  induction ps generalizing s with
  | nil => rfl
  | cons p ps ih =>
    rw [runPrices_cons, ih, update_config]

lemma runPrices_step_bound (s : BState) (ps : List ℚ)
    (h : s.current_step ≤ s.config.num_steps) :
    (runPrices s ps).current_step ≤ s.config.num_steps := by
  induction ps generalizing s with
  | nil => exact h
  | cons p ps ih =>
    rw [runPrices_cons]
    have hb : (update s p).2.current_step ≤ (update s p).2.config.num_steps := by
      rw [update_config]
      exact update_step_bound s p h
    have := ih (update s p).2 hb
    rwa [update_config] at this

lemma runPrices_mono (s : BState) (ps : List ℚ) :
    s.current_step ≤ (runPrices s ps).current_step := by
  induction ps generalizing s with
  | nil => exact Nat.le_refl _
  | cons p ps ih =>
    rw [runPrices_cons]
    refine Nat.le_trans ?_ (ih (update s p).2)
    rcases update_step s p with heq | ⟨h1, -, -⟩
    · rw [heq]
    · rw [h1]; exact Nat.le_succ _

lemma init_position_config (s : BState) (entry stop : ℚ) ( is_long : Bool) :
    (init_position s entry stop is_long).config = s.config := rfl

lemma init_position_step (s : BState) (entry stop : ℚ) ( is_long : Bool) :
    (init_position s entry stop is_long).current_step = 0 := rfl

/-- C2: across any sequence of `update` calls after `initialize_position`,
current_step never decreases, increases by at most 1 per call, never
exceeds num_steps, and an increase at a call requires that call to have
observed profit at or above the target for the step being left. -/
theorem step_activation_order :
    (∀ (cfg : BreakevenConfig) (entry stop : ℚ) (lng : Bool) (pre : List ℚ) (p : ℚ),
      (runPrices (init_position (mkManager cfg) entry stop lng) pre).current_step
          ≤ (update (runPrices (init_position (mkManager cfg) entry stop lng) pre) p).2.current_step ∧
      (update (runPrices (init_position (mkManager cfg) entry stop lng) pre) p).2.current_step
          ≤ (runPrices (init_position (mkManager cfg) entry stop lng) pre).current_step + 1 ∧
      (update (runPrices (init_position (mkManager cfg) entry stop lng) pre) p).2.current_step
          ≤ cfg.num_steps ∧
      ((runPrices (init_position (mkManager cfg) entry stop lng) pre).current_step
          < (update (runPrices (init_position (mkManager cfg) entry stop lng) pre) p).2.current_step →
        cfg.profit_targets.getD
            (runPrices (init_position (mkManager cfg) entry stop lng) pre).current_step 0
          ≤ profitAt (runPrices (init_position (mkManager cfg) entry stop lng) pre) p)) ∧
    (∀ (cfg : BreakevenConfig) (entry stop : ℚ) (lng : Bool) (pre post : List ℚ),
      (runPrices (init_position (mkManager cfg) entry stop lng) pre).current_step
        ≤ (runPrices (init_position (mkManager cfg) entry stop lng) (pre ++ post)).current_step) := by
  constructor
  · intro cfg entry stop lng pre p
    have hcfg : (runPrices (init_position (mkManager cfg) entry stop lng) pre).config = cfg := by
      rw [runPrices_config, init_position_config]
      rfl
    have hbound : (runPrices (init_position (mkManager cfg) entry stop lng) pre).current_step
        ≤ cfg.num_steps := by
      have := runPrices_step_bound (init_position (mkManager cfg) entry stop lng) pre
        (by rw [init_position_step]; exact Nat.zero_le _)
      rwa [init_position_config] at this
    rcases update_step (runPrices (init_position (mkManager cfg) entry stop lng) pre) p with
      heq | ⟨h1, h2, h3⟩
    · refine ⟨Nat.le_of_eq heq.symm, ?_, ?_, ?_⟩
      · rw [heq]; exact Nat.le_succ _
      · rw [heq]; exact hbound
      · intro hc
        rw [heq] at hc
        exact absurd hc (Nat.lt_irrefl _)
    · rw [hcfg] at h2 h3
      refine ⟨?_, Nat.le_of_eq h1, ?_, fun _ => h3⟩
      · rw [h1]; exact Nat.le_succ _
      · rw [h1]; exact Nat.succ_le_of_lt h2
  · intro cfg entry stop lng pre post
    simp only [runPrices, List.foldl_append]
    exact runPrices_mono _ post

/-- C2 witness: the per-call facts at a concrete input — 2-step config,
entry 100, one prior price 110, current price 105. -/
theorem step_activation_order_witness :
    (runPrices (init_position (mkManager ⟨2, [1, 5], [0, 0], 1, some 1, true, none⟩) 100 90 true) [110]).current_step
        ≤ (update (runPrices (init_position (mkManager ⟨2, [1, 5], [0, 0], 1, some 1, true, none⟩) 100 90 true) [110]) 105).2.current_step ∧
    (update (runPrices (init_position (mkManager ⟨2, [1, 5], [0, 0], 1, some 1, true, none⟩) 100 90 true) [110]) 105).2.current_step
        ≤ (runPrices (init_position (mkManager ⟨2, [1, 5], [0, 0], 1, some 1, true, none⟩) 100 90 true) [110]).current_step + 1 ∧
    (update (runPrices (init_position (mkManager ⟨2, [1, 5], [0, 0], 1, some 1, true, none⟩) 100 90 true) [110]) 105).2.current_step
        ≤ (⟨2, [1, 5], [0, 0], 1, some 1, true, none⟩ : BreakevenConfig).num_steps ∧
    ((runPrices (init_position (mkManager ⟨2, [1, 5], [0, 0], 1, some 1, true, none⟩) 100 90 true) [110]).current_step
        < (update (runPrices (init_position (mkManager ⟨2, [1, 5], [0, 0], 1, some 1, true, none⟩) 100 90 true) [110]) 105).2.current_step →
      (⟨2, [1, 5], [0, 0], 1, some 1, true, none⟩ : BreakevenConfig).profit_targets.getD
          (runPrices (init_position (mkManager ⟨2, [1, 5], [0, 0], 1, some 1, true, none⟩) 100 90 true) [110]).current_step 0
        ≤ profitAt (runPrices (init_position (mkManager ⟨2, [1, 5], [0, 0], 1, some 1, true, none⟩) 100 90 true) [110]) 105) :=
  step_activation_order.1 ⟨2, [1, 5], [0, 0], 1, some 1, true, none⟩ 100 90 true [110] 105

/-- C10: with tick_size left unset (None) and a position initialized, an
`update` call whose profit stays below the first target returns None
normally (only the extreme-price tracker moves, step stays 0, the stop is
untouched), while the first call whose profit reaches profit_targets[0]
raises the tick-size ValueError from inside the trailing-stop block —
after current_step has already been incremented to 1 and without touching
the stop. -/
theorem lazy_tick_size_failure (s : BState) (p e : ℚ) (sd : Side)
    (htick : s.config.tick_size_raw = none)
    (hen : s.config.enabled = true)
    (hns : 0 < s.config.num_steps)
    (hstep : s.current_step = 0)
    (hentry : s.entry_price = some e)
    (hside : s.position_side = some sd) :
    (profitAt s p < s.config.profit_targets.getD 0 0 →
      (update s p).1 = Except.ok none ∧
      (update s p).2.current_step = 0 ∧
      (update s p).2.current_stop_loss = s.current_stop_loss ∧
      (update s p).2.config = s.config ∧
      (update s p).2.entry_price = s.entry_price ∧
      (update s p).2.position_side = s.position_side) ∧
    (s.config.profit_targets.getD 0 0 ≤ profitAt s p →
      (update s p).1 = Except.error tickSizeMsg ∧
      (update s p).2.current_step = 1 ∧
      (update s p).2.current_stop_loss = s.current_stop_loss) := by
  have hguard : ¬ (s.config.enabled = false ∨ s.entry_price = none) := by
    simp [hen, hentry]
  cases sd with
  | long =>
    have hd : update s p = update_long s p := by
      rw [update, if_neg hguard, hside]
    have hpa : profitAt s p = profitLongOf s p := by
      simp [profitAt, hside]
    constructor
    · intro hlt
      rw [hpa] at hlt
      have hact : ¬ (s.current_step < s.config.num_steps ∧
          profitLongOf s p ≥ s.config.profit_targets.getD s.current_step 0) := by
        rw [hstep]
        rintro ⟨-, hge⟩
        exact absurd hge (not_le.mpr hlt)
      rw [hd]
      simp only [update_long, if_neg hact]
      simp [hstep, applyNewStop]
    · intro hge
      rw [hpa] at hge
      have hact : s.current_step < s.config.num_steps ∧
          profitLongOf s p ≥ s.config.profit_targets.getD s.current_step 0 := by
        rw [hstep]
        exact ⟨hns, hge⟩
      rw [hd]
      simp only [update_long, if_pos hact]
      simp [htick, hstep]
  | short =>
    have hd : update s p = update_short s p := by
      rw [update, if_neg hguard, hside]
    have hpa : profitAt s p = profitShortOf s p := by
      simp [profitAt, hside]
    constructor
    · intro hlt
      rw [hpa] at hlt
      have hact : ¬ (s.current_step < s.config.num_steps ∧
          profitShortOf s p ≥ s.config.profit_targets.getD s.current_step 0) := by
        rw [hstep]
        rintro ⟨-, hge⟩
        exact absurd hge (not_le.mpr hlt)
      rw [hd]
      simp only [update_short, if_neg hact]
      simp [hstep, applyNewStop]
    · intro hge
      rw [hpa] at hge
      have hact : s.current_step < s.config.num_steps ∧
          profitShortOf s p ≥ s.config.profit_targets.getD s.current_step 0 := by
        rw [hstep]
        exact ⟨hns, hge⟩
      rw [hd]
      simp only [update_short, if_pos hact]
      simp [htick, hstep]

/-- C10 witness: 1-step config with target 5 and no tick size; entry 100.
Price 102 (profit 2 < 5) returns None normally; price 106 (profit 6 ≥ 5)
raises after stepping to 1. -/
theorem lazy_tick_size_failure_witness :
    (profitAt (init_position (mkManager ⟨1, [5], [0], 2, none, true, none⟩) 100 90 true) 106
        < (init_position (mkManager ⟨1, [5], [0], 2, none, true, none⟩) 100 90 true).config.profit_targets.getD 0 0 →
      (update (init_position (mkManager ⟨1, [5], [0], 2, none, true, none⟩) 100 90 true) 106).1 = Except.ok none ∧
      (update (init_position (mkManager ⟨1, [5], [0], 2, none, true, none⟩) 100 90 true) 106).2.current_step = 0 ∧
      (update (init_position (mkManager ⟨1, [5], [0], 2, none, true, none⟩) 100 90 true) 106).2.current_stop_loss
          = (init_position (mkManager ⟨1, [5], [0], 2, none, true, none⟩) 100 90 true).current_stop_loss ∧
      (update (init_position (mkManager ⟨1, [5], [0], 2, none, true, none⟩) 100 90 true) 106).2.config
          = (init_position (mkManager ⟨1, [5], [0], 2, none, true, none⟩) 100 90 true).config ∧
      (update (init_position (mkManager ⟨1, [5], [0], 2, none, true, none⟩) 100 90 true) 106).2.entry_price
          = (init_position (mkManager ⟨1, [5], [0], 2, none, true, none⟩) 100 90 true).entry_price ∧
      (update (init_position (mkManager ⟨1, [5], [0], 2, none, true, none⟩) 100 90 true) 106).2.position_side
          = (init_position (mkManager ⟨1, [5], [0], 2, none, true, none⟩) 100 90 true).position_side) ∧
    ((init_position (mkManager ⟨1, [5], [0], 2, none, true, none⟩) 100 90 true).config.profit_targets.getD 0 0
        ≤ profitAt (init_position (mkManager ⟨1, [5], [0], 2, none, true, none⟩) 100 90 true) 106 →
      (update (init_position (mkManager ⟨1, [5], [0], 2, none, true, none⟩) 100 90 true) 106).1
          = Except.error tickSizeMsg ∧
      (update (init_position (mkManager ⟨1, [5], [0], 2, none, true, none⟩) 100 90 true) 106).2.current_step = 1 ∧
      (update (init_position (mkManager ⟨1, [5], [0], 2, none, true, none⟩) 100 90 true) 106).2.current_stop_loss
          = (init_position (mkManager ⟨1, [5], [0], 2, none, true, none⟩) 100 90 true).current_stop_loss) :=
  lazy_tick_size_failure (init_position (mkManager ⟨1, [5], [0], 2, none, true, none⟩) 100 90 true)
    106 100 Side.long rfl rfl (by decide) rfl rfl rfl

/-- `RiskLevel` classification. -/
inductive RiskLevel where
  | LOW : RiskLevel
  | MEDIUM : RiskLevel
  | HIGH : RiskLevel
  | CRITICAL : RiskLevel
deriving DecidableEq, Repr

/-- `RiskLimits` configuration record.  Times-of-day and the cool-down
duration are rationals (seconds). -/
structure RiskLimits where
  max_contracts_per_trade : ℤ
  max_total_contracts : ℤ
  max_instruments : ℤ
  max_risk_per_trade : ℚ
  max_daily_loss : ℚ
  max_total_loss : ℚ
  daily_profit_target : Option ℚ
  max_daily_profit : Option ℚ
  risk_per_trade_pct : ℚ
  max_position_size_pct : ℚ
  trading_start_time : Option ℚ
  trading_end_time : Option ℚ
  max_consecutive_losses : ℕ
  cool_down_after_losses : ℚ
deriving DecidableEq, Repr

/-- The `__post_init__` validation of `RiskLimits`. -/
def RiskLimits.Valid (l : RiskLimits) : Prop :=
  0 < l.max_risk_per_trade ∧ 0 < l.max_daily_loss ∧
  0 < l.risk_per_trade_pct ∧ l.risk_per_trade_pct ≤ 100

/-- `PositionSizer` state: account balance plus the shared limits. -/
structure PositionSizer where
  account_balance : ℚ
  risk_limits : RiskLimits
deriving DecidableEq, Repr

/-- `PositionSizer.calculate_position_size`. -/
def calculate_position_size (sizer : PositionSizer) (entry_price stop_loss tick_size tick_value : ℚ)
    (max_contracts : Option ℤ) : ℤ :=
  let points_at_risk := |entry_price - stop_loss|
  if points_at_risk = 0 then 0
  else
    let ticks_at_risk := points_at_risk / tick_size
    let risk_per_contract := ticks_at_risk * tick_value
    let max_by_dollar_risk := pyInt (sizer.risk_limits.max_risk_per_trade / risk_per_contract)
    let account_risk_dollars := sizer.account_balance * (sizer.risk_limits.risk_per_trade_pct / 100)
    let max_by_account_pct := pyInt (account_risk_dollars / risk_per_contract)
    let position_size := min (min max_by_dollar_risk max_by_account_pct)
      sizer.risk_limits.max_contracts_per_trade
    let position_size2 :=
      match max_contracts with
      | some m => min position_size m
      | none => position_size
    max 0 position_size2

/-- A wall-clock sample: absolute seconds and seconds-of-day, both read
from the same `datetime.now()` call. -/
structure Clock where
  absTime : ℚ
  tod : ℚ
deriving DecidableEq, Repr

/-- Association-list model of the Python dict `active_positions`
(keys are unique in every reachable state). -/
def dictGet : List (String × ℤ) → String → Option ℤ
  | [], _ => none
  | (k, v) :: t, key => if k = key then some v else dictGet t key

/-- Replace the value stored under an existing key. -/
def dictSet : List (String × ℤ) → String → ℤ → List (String × ℤ)
  | [], _, _ => []
  | (k, v) :: t, key, w =>
    if k = key then (k, w) :: dictSet t key w else (k, v) :: dictSet t key w

/-- `del d[key]`. -/
def dictErase : List (String × ℤ) → String → List (String × ℤ)
  | [], _ => []
  | (k, v) :: t, key =>
    if k = key then dictErase t key else (k, v) :: dictErase t key

/-- `RiskManager` mutable state.  The two callbacks are modelled as event
values returned by the operations that would invoke them. -/
structure RiskManager where
  risk_limits : RiskLimits
  position_sizer : PositionSizer
  daily_pnl : ℚ
  total_pnl : ℚ
  daily_trades : ℕ
  total_trades : ℕ
  consecutive_losses : ℕ
  last_loss_time : Option ℚ
  active_positions : List (String × ℤ)
  total_contracts : ℤ
  trading_enabled : Bool
  shutdown_reason : Option String
deriving DecidableEq, Repr

/-- `RiskManager.__init__(risk_limits, initial_balance)`. -/
def RiskManager.init (limits : RiskLimits) (initial_balance : ℚ) : RiskManager :=
  { risk_limits := limits, position_sizer := ⟨initial_balance, limits⟩,
    daily_pnl := 0, total_pnl := 0, daily_trades := 0, total_trades := 0,
    consecutive_losses := 0, last_loss_time := none, active_positions := [],
    total_contracts := 0, trading_enabled := true, shutdown_reason := none }

/-- `RiskManager._trigger_shutdown(reason)`; the second component is the
`on_limit_reached` notification. -/
def trigger_shutdown (rm : RiskManager) (reason : String) : RiskManager × Option String :=
  ({ rm with trading_enabled := false, shutdown_reason := some reason }, some reason)

/-- Render an `Optional[str]` the way a Python f-string does. -/
def optStr : Option String → String
  | some s => s
  | none => "None"

/-- `RiskManager._is_trading_time()` at a given time of day. -/
def is_trading_time (rm : RiskManager) (tod : ℚ) : Bool :=
  match rm.risk_limits.trading_start_time, rm.risk_limits.trading_end_time with
  | some start, some stop =>
    if start < stop then decide (start ≤ tod ∧ tod ≤ stop)
    else decide (tod ≥ start ∨ tod ≤ stop)
  | _, _ => true

/-- `RiskManager.can_trade(instrument, quantity)`: the ten prioritized
checks, short-circuiting on the first failure.  Returns the
(allowed, reason) pair, the state after any shutdown side effect, and the
optional `on_limit_reached` event. -/
def can_trade (rm : RiskManager) (instrument : String) (quantity : ℤ) (clk : Clock) :
    (Bool × String) × RiskManager × Option String :=
  if rm.trading_enabled = false then
    ((false, "Trading disabled: " ++ optStr rm.shutdown_reason), rm, none)
  else if is_trading_time rm clk.tod = false then
    ((false, "Outside trading hours"), rm, none)
  else if rm.daily_pnl ≤ -rm.risk_limits.max_daily_loss then
    let t := trigger_shutdown rm "Daily loss limit reached"
    ((false, "Daily loss limit reached"), t.1, t.2)
  else if rm.total_pnl ≤ -rm.risk_limits.max_total_loss then
    let t := trigger_shutdown rm "Total loss limit reached"
    ((false, "Total loss limit reached"), t.1, t.2)
  else if (match rm.risk_limits.daily_profit_target with
           | some tgt => decide (rm.daily_pnl ≥ tgt)
           | none => false) = true then
    ((false, "Daily profit target reached"), rm, none)
  else if (match rm.risk_limits.max_daily_profit with
           | some cap => decide (rm.daily_pnl ≥ cap)
           | none => false) = true then
    ((false, "Max daily profit reached"), rm, none)
  else if (decide (rm.consecutive_losses ≥ rm.risk_limits.max_consecutive_losses) &&
           (match rm.last_loss_time with
            | some t => decide (clk.absTime - t < rm.risk_limits.cool_down_after_losses)
            | none => false)) = true then
    ((false, "Cool-down period: " ++
        toString (pyInt (rm.risk_limits.cool_down_after_losses -
          (clk.absTime - (match rm.last_loss_time with | some t => t | none => 0)))) ++
        "s remaining"), rm, none)
  else if rm.total_contracts + quantity > rm.risk_limits.max_total_contracts then
    ((false, "Total contracts limit (" ++ toString rm.risk_limits.max_total_contracts ++
        ") would be exceeded"), rm, none)
  else if quantity > rm.risk_limits.max_contracts_per_trade then
    ((false, "Trade size exceeds max contracts per trade (" ++
        toString rm.risk_limits.max_contracts_per_trade ++ ")"), rm, none)
  else if (dictGet rm.active_positions instrument).isNone &&
      decide ((rm.active_positions.length : ℤ) ≥ rm.risk_limits.max_instruments) then
    ((false, "Max instruments limit (" ++ toString rm.risk_limits.max_instruments ++
        ") reached"), rm, none)
  else
    ((true, "Trade allowed"), rm, none)

/-- `RiskManager.register_trade(instrument, quantity, is_long)`. -/
def register_trade (rm : RiskManager) (instrument : String) (quantity : ℤ)
    ( is_long : Bool) : RiskManager :=
  let ap :=
    match dictGet rm.active_positions instrument with
    | some v => dictSet rm.active_positions instrument (v + quantity)
    | none => rm.active_positions ++ [(instrument, quantity)]
  { rm with
    active_positions := ap,
    total_contracts := rm.total_contracts + quantity,
    daily_trades := rm.daily_trades + 1,
    total_trades := rm.total_trades + 1 }

/-- `RiskManager.close_position(instrument, quantity, pnl)`; `now` is the
wall-clock reading used for `last_loss_time`; the second component is the
`on_risk_violation` notification (message, level) if triggered. -/
def close_position (rm : RiskManager) (instrument : String) (quantity : ℤ)
    (pnl : ℚ) (now : ℚ) : RiskManager × Option (String × RiskLevel) :=
  let ap :=
    match dictGet rm.active_positions instrument with
    | some v =>
      if v - quantity ≤ 0 then dictErase rm.active_positions instrument
      else dictSet rm.active_positions instrument (v - quantity)
    | none => rm.active_positions
  let rm1 := { rm with
    active_positions := ap,
    total_contracts := max 0 (rm.total_contracts - quantity),
    daily_pnl := rm.daily_pnl + pnl,
    total_pnl := rm.total_pnl + pnl }
  if pnl < 0 then
    let rm2 := { rm1 with
      consecutive_losses := rm1.consecutive_losses + 1,
      last_loss_time := some now }
    if rm2.consecutive_losses ≥ rm2.risk_limits.max_consecutive_losses then
      (rm2, some ("Consecutive loss limit reached", RiskLevel.CRITICAL))
    else (rm2, none)
  else ({ rm1 with consecutive_losses := 0 }, none)

/-- `RiskManager.update_daily_pnl(pnl)`. -/
def update_daily_pnl (rm : RiskManager) (pnl : ℚ) : RiskManager :=
  { rm with daily_pnl := pnl }

/-- `RiskManager.reset_daily_metrics()`. -/
def reset_daily_metrics (rm : RiskManager) : RiskManager :=
  { rm with
    daily_pnl := 0, daily_trades := 0, consecutive_losses := 0,
    last_loss_time := none }

/-- `RiskManager.enable_trading()`. -/
def enable_trading (rm : RiskManager) : RiskManager :=
  { rm with trading_enabled := true, shutdown_reason := none }

/-- `RiskManager.disable_trading(reason)`. -/
def disable_trading (rm : RiskManager) (reason : String) : RiskManager × Option String :=
  trigger_shutdown rm reason

lemma dictGet_erase (d : List (String × ℤ)) (k : String) :
    dictGet (dictErase d k) k = none := by
  induction d with
  | nil => rfl
  | cons kv t ih =>
    obtain ⟨k0, v0⟩ := kv
    by_cases h : k0 = k
    · simp [dictErase, h, ih]
    · simp [dictErase, dictGet, h, ih]

lemma dictGet_set (d : List (String × ℤ)) (k : String) (w : ℤ) :
    dictGet (dictSet d k w) k = (dictGet d k).map (fun _ => w) := by
  induction d with
  | nil => rfl
  | cons kv t ih =>
    obtain ⟨k0, v0⟩ := kv
    by_cases h : k0 = k
    · simp [dictSet, dictGet, h]
    · simp [dictSet, dictGet, h, ih]

lemma close_position_enabled (rm : RiskManager) (i : String) (q : ℤ) (pnl now : ℚ) :
    (close_position rm i q pnl now).1.trading_enabled = rm.trading_enabled := by
  unfold close_position
  dsimp only
  split
  · split <;> rfl
  · rfl

lemma close_position_shutdown (rm : RiskManager) (i : String) (q : ℤ) (pnl now : ℚ) :
    (close_position rm i q pnl now).1.shutdown_reason = rm.shutdown_reason := by
  unfold close_position
  dsimp only
  split
  · split <;> rfl
  · rfl

lemma can_trade_state_cases (rm : RiskManager) (i : String) (q : ℤ) (c : Clock) :
    (can_trade rm i q c).2.1 = rm ∨
    (can_trade rm i q c).2.1
      = { rm with trading_enabled := false, shutdown_reason := some "Daily loss limit reached" } ∨
    (can_trade rm i q c).2.1
      = { rm with trading_enabled := false, shutdown_reason := some "Total loss limit reached" } := by
  unfold can_trade trigger_shutdown
  by_cases h1 : rm.trading_enabled = false
  · rw [if_pos h1]; left; rfl
  · rw [if_neg h1]
    by_cases h2 : is_trading_time rm c.tod = false
    · rw [if_pos h2]; left; rfl
    · rw [if_neg h2]
      by_cases h3 : rm.daily_pnl ≤ -rm.risk_limits.max_daily_loss
      · rw [if_pos h3]; right; left; rfl
      · rw [if_neg h3]
        by_cases h4 : rm.total_pnl ≤ -rm.risk_limits.max_total_loss
        · rw [if_pos h4]; right; right; rfl
        · rw [if_neg h4]
          by_cases h5 : (match rm.risk_limits.daily_profit_target with
              | some tgt => decide (rm.daily_pnl ≥ tgt)
              | none => false) = true
          · rw [if_pos h5]; left; rfl
          · rw [if_neg h5]
            by_cases h6 : (match rm.risk_limits.max_daily_profit with
                | some cap => decide (rm.daily_pnl ≥ cap)
                | none => false) = true
            · rw [if_pos h6]; left; rfl
            · rw [if_neg h6]
              by_cases h7 : (decide (rm.consecutive_losses ≥ rm.risk_limits.max_consecutive_losses) &&
                  (match rm.last_loss_time with
                   | some t => decide (c.absTime - t < rm.risk_limits.cool_down_after_losses)
                   | none => false)) = true
              · rw [if_pos h7]; left; rfl
              · rw [if_neg h7]
                by_cases h8 : rm.total_contracts + q > rm.risk_limits.max_total_contracts
                · rw [if_pos h8]; left; rfl
                · rw [if_neg h8]
                  by_cases h9 : q > rm.risk_limits.max_contracts_per_trade
                  · rw [if_pos h9]; left; rfl
                  · rw [if_neg h9]
                    by_cases h10 : ((dictGet rm.active_positions i).isNone &&
                        decide ((rm.active_positions.length : ℤ) ≥ rm.risk_limits.max_instruments)) = true
                    · rw [if_pos h10]; left; rfl
                    · rw [if_neg h10]; left; rfl

lemma can_trade_state_inv (rm : RiskManager) (i : String) (q : ℤ) (c : Clock)
    (P : RiskManager → Prop) (hrm : P rm)
    (hshut : ∀ r, P { rm with trading_enabled := false, shutdown_reason := some r }) :
    P (can_trade rm i q c).2.1 := by
  rcases can_trade_state_cases rm i q c with h | h | h <;> rw [h]
  · exact hrm
  · exact hshut "Daily loss limit reached"
  · exact hshut "Total loss limit reached"

/-- C3: once daily_pnl is at or below -max_daily_loss, the next can_trade
call (with trading still enabled and within trading hours) denies with
reason "Daily loss limit reached" and trips the shutdown; the disabled
flag survives every other public operation and is cleared only by an
explicit enable_trading call, which also clears shutdown_reason. -/
theorem daily_loss_trip_manual_reset :
    (∀ (rm : RiskManager) (instrument : String) (quantity : ℤ) (clk : Clock),
      rm.trading_enabled = true →
      is_trading_time rm clk.tod = true →
      rm.daily_pnl ≤ -rm.risk_limits.max_daily_loss →
      (can_trade rm instrument quantity clk).1 = (false, "Daily loss limit reached") ∧
      (can_trade rm instrument quantity clk).2.1.trading_enabled = false ∧
      (can_trade rm instrument quantity clk).2.1.shutdown_reason
        = some "Daily loss limit reached") ∧
    (∀ rm : RiskManager, rm.trading_enabled = false →
      (∀ (instrument : String) (quantity : ℤ) (clk : Clock),
        (can_trade rm instrument quantity clk).2.1.trading_enabled = false) ∧
      (∀ (instrument : String) (quantity : ℤ) (lng : Bool),
        (register_trade rm instrument quantity lng).trading_enabled = false) ∧
      (∀ (instrument : String) (quantity : ℤ) (pnl now : ℚ),
        (close_position rm instrument quantity pnl now).1.trading_enabled = false) ∧
      (∀ pnl : ℚ, (update_daily_pnl rm pnl).trading_enabled = false) ∧
      (reset_daily_metrics rm).trading_enabled = false ∧
      (∀ reason : String, (disable_trading rm reason).1.trading_enabled = false)) ∧
    (∀ rm : RiskManager,
      (enable_trading rm).trading_enabled = true ∧
      (enable_trading rm).shutdown_reason = none) := by
  refine ⟨?_, ?_, ?_⟩
  · intro rm instrument quantity clk h1 h2 h3
    simp [can_trade, h1, h2, h3, trigger_shutdown]
  · intro rm h
    refine ⟨fun i q c => ?_, fun i q l => ?_, fun i q pnl now => ?_, fun pnl => ?_, ?_, fun r => ?_⟩
    · exact can_trade_state_inv rm i q c (fun x => x.trading_enabled = false) h (fun r => rfl)
    · exact h
    · rw [close_position_enabled]; exact h
    · exact h
    · exact h
    · rfl
  · intro rm
    exact ⟨rfl, rfl⟩

/-- A concrete validated RiskLimits record used by the scenario witnesses:
max_daily_loss = 500, max_risk_per_trade = 100, 3 contracts per trade. -/
def limits0 : RiskLimits :=
  ⟨3, 10, 5, 100, 500, 2000, none, none, 1, 10, none, none, 3, 300⟩

/-- The spec scenario state: a fresh manager after close_position with
pnl = -501. -/
def rmTripped : RiskManager :=
  (close_position (RiskManager.init limits0 10000) "ES" 1 (-501) 0).1

/-- C3 witness: the scenario — max_daily_loss 500, close at -501, then
can_trade denies with "Daily loss limit reached" and trips the shutdown. -/
theorem daily_loss_trip_manual_reset_witness :
    (can_trade rmTripped "ES" 1 ⟨0, 0⟩).1 = (false, "Daily loss limit reached") ∧
    (can_trade rmTripped "ES" 1 ⟨0, 0⟩).2.1.trading_enabled = false ∧
    (can_trade rmTripped "ES" 1 ⟨0, 0⟩).2.1.shutdown_reason
      = some "Daily loss limit reached" :=
  daily_loss_trip_manual_reset.1 rmTripped "ES" 1 ⟨0, 0⟩ rfl rfl
    (by norm_num [rmTripped, close_position, RiskManager.init, limits0, dictGet])

/-- States of a `RiskManager` reachable from construction through the
public operations. -/
inductive ReachableRM : RiskManager → Prop where
  | init : ∀ (limits : RiskLimits) (balance : ℚ), ReachableRM (RiskManager.init limits balance)
  | can_trade_step : ∀ {rm : RiskManager} (instrument : String) (quantity : ℤ) (clk : Clock),
      ReachableRM rm → ReachableRM (can_trade rm instrument quantity clk).2.1
  | register_step : ∀ {rm : RiskManager} (instrument : String) (quantity : ℤ) (lng : Bool),
      ReachableRM rm → ReachableRM (register_trade rm instrument quantity lng)
  | close_step : ∀ {rm : RiskManager} (instrument : String) (quantity : ℤ) (pnl now : ℚ),
      ReachableRM rm → ReachableRM (close_position rm instrument quantity pnl now).1
  | update_pnl_step : ∀ {rm : RiskManager} (pnl : ℚ),
      ReachableRM rm → ReachableRM (update_daily_pnl rm pnl)
  | reset_step : ∀ {rm : RiskManager},
      ReachableRM rm → ReachableRM (reset_daily_metrics rm)
  | enable_step : ∀ {rm : RiskManager},
      ReachableRM rm → ReachableRM (enable_trading rm)
  | disable_step : ∀ {rm : RiskManager} (reason : String),
      ReachableRM rm → ReachableRM (disable_trading rm reason).1

/-- C9: in every reachable `RiskManager` state, shutdown_reason is
non-None exactly when trading_enabled is False. -/
theorem shutdown_reason_iff_disabled (rm : RiskManager) (h : ReachableRM rm) :
    rm.shutdown_reason ≠ none ↔ rm.trading_enabled = false := by
  induction h with
  | init limits balance => simp [RiskManager.init]
  | can_trade_step instrument quantity clk hr ih =>
    exact can_trade_state_inv _ instrument quantity clk
      (fun x => x.shutdown_reason ≠ none ↔ x.trading_enabled = false) ih (fun r => by simp)
  | register_step instrument quantity lng hr ih => exact ih
  | close_step instrument quantity pnl now hr ih =>
    rw [close_position_shutdown, close_position_enabled]
    exact ih
  | update_pnl_step pnl hr ih => exact ih
  | reset_step hr ih => exact ih
  | enable_step hr ih => simp [enable_trading]
  | disable_step reason hr ih => simp [disable_trading, trigger_shutdown]

/-- C9 witness: the invariant instantiated at a freshly constructed
manager. -/
theorem shutdown_reason_iff_disabled_witness :
    (RiskManager.init limits0 10000).shutdown_reason ≠ none ↔
      (RiskManager.init limits0 10000).trading_enabled = false :=
  shutdown_reason_iff_disabled (RiskManager.init limits0 10000)
    (ReachableRM.init limits0 10000)

/-- C7: with trading_enabled false, can_trade denies immediately with the
stored shutdown_reason embedded in the reason string, leaves the state
untouched, and emits no event. -/
theorem can_trade_denies_when_disabled (rm : RiskManager) (instrument : String)
    (quantity : ℤ) (clk : Clock) (h : rm.trading_enabled = false) :
    can_trade rm instrument quantity clk
      = ((false, "Trading disabled: " ++ optStr rm.shutdown_reason), rm, none) ∧
    ∀ r, rm.shutdown_reason = some r →
      ∃ pre, "Trading disabled: " ++ optStr rm.shutdown_reason = pre ++ r := by
  constructor
  · rw [can_trade, if_pos h]
  · intro r hr
    refine ⟨"Trading disabled: ", ?_⟩
    rw [hr]
    rfl

/-- A disabled manager with a stored shutdown reason, for the C7 witness. -/
def rmDisabled : RiskManager :=
  { RiskManager.init limits0 10000 with
    trading_enabled := false, shutdown_reason := some "Manual halt" }

/-- C7 witness: the theorem applied to a concrete disabled manager. -/
theorem can_trade_denies_when_disabled_witness :
    can_trade rmDisabled "NQ" 2 ⟨0, 0⟩
      = ((false, "Trading disabled: " ++ optStr rmDisabled.shutdown_reason), rmDisabled, none) ∧
    ∀ r, rmDisabled.shutdown_reason = some r →
      ∃ pre, "Trading disabled: " ++ optStr rmDisabled.shutdown_reason = pre ++ r :=
  can_trade_denies_when_disabled rmDisabled "NQ" 2 ⟨0, 0⟩ rfl

/-- C6: close_position postconditions — the instrument's open quantity is
decremented and the key removed when it drops to 0 or below; total
contracts are decremented with a floor of 0; pnl is added to both daily
and total P&L; a losing close increments consecutive_losses, records the
loss time, and emits the CRITICAL consecutive-loss alert exactly when the
new count meets max_consecutive_losses; a non-losing close resets
consecutive_losses to 0. -/
theorem close_position_postconditions (rm : RiskManager) (instrument : String)
    (quantity : ℤ) (pnl now : ℚ) :
    dictGet (close_position rm instrument quantity pnl now).1.active_positions instrument
      = (match dictGet rm.active_positions instrument with
         | none => none
         | some v => if v - quantity ≤ 0 then none else some (v - quantity)) ∧
    (close_position rm instrument quantity pnl now).1.total_contracts
      = max 0 (rm.total_contracts - quantity) ∧
    (close_position rm instrument quantity pnl now).1.daily_pnl = rm.daily_pnl + pnl ∧
    (close_position rm instrument quantity pnl now).1.total_pnl = rm.total_pnl + pnl ∧
    (close_position rm instrument quantity pnl now).1.consecutive_losses
      = (if pnl < 0 then rm.consecutive_losses + 1 else 0) ∧
    (close_position rm instrument quantity pnl now).1.last_loss_time
      = (if pnl < 0 then some now else rm.last_loss_time) ∧
    (close_position rm instrument quantity pnl now).2
      = (if pnl < 0 ∧ rm.consecutive_losses + 1 ≥ rm.risk_limits.max_consecutive_losses
         then some ("Consecutive loss limit reached", RiskLevel.CRITICAL)
         else none) := by
  unfold close_position
  by_cases hp : pnl < 0
  · by_cases hc : rm.consecutive_losses + 1 ≥ rm.risk_limits.max_consecutive_losses
    · cases hd : dictGet rm.active_positions instrument with
      | none => simp [hd, hp, hc]
      | some v =>
        by_cases hq : v - quantity ≤ 0
        · simp [hd, hp, hc, hq, dictGet_erase]
        · simp [hd, hp, hc, hq, dictGet_set]
    · cases hd : dictGet rm.active_positions instrument with
      | none => simp [hd, hp, hc]
      | some v =>
        by_cases hq : v - quantity ≤ 0
        · simp [hd, hp, hc, hq, dictGet_erase]
        · simp [hd, hp, hc, hq, dictGet_set]
  · cases hd : dictGet rm.active_positions instrument with
    | none => simp [hd, hp]
    | some v =>
      by_cases hq : v - quantity ≤ 0
      · simp [hd, hp, hq, dictGet_erase]
      · simp [hd, hp, hq, dictGet_set]

lemma calculate_position_size_eq (sizer : PositionSizer) (e st ts tv : ℚ) (mc : Option ℤ)
    (h : ¬ |e - st| = 0) :
    calculate_position_size sizer e st ts tv mc
      = max 0 (match mc with
          | some m =>
            min (min (min (pyInt (sizer.risk_limits.max_risk_per_trade / ((|e - st| / ts) * tv)))
                  (pyInt (sizer.account_balance * (sizer.risk_limits.risk_per_trade_pct / 100)
                    / ((|e - st| / ts) * tv))))
                sizer.risk_limits.max_contracts_per_trade) m
          | none =>
            min (min (pyInt (sizer.risk_limits.max_risk_per_trade / ((|e - st| / ts) * tv)))
                  (pyInt (sizer.account_balance * (sizer.risk_limits.risk_per_trade_pct / 100)
                    / ((|e - st| / ts) * tv))))
                sizer.risk_limits.max_contracts_per_trade) := by
  simp only [calculate_position_size]
  rw [if_neg h]

/-- C4 (counterexample): with a negative account balance the claimed bound
fails — Python `int()` truncates toward zero while the claim floors, and
the final `max(0, ...)` clamp lifts the result above the claimed cap.
Here balance = -1000, pct = 1, entry 10, stop 9, tick 1, tick value 10:
the code returns 0, but the claimed bound is
min(3, floor(100/10), floor(-10/10)) = -1. -/
theorem position_size_bound_negative_balance_counterexample :
    calculate_position_size ⟨-1000, limits0⟩ 10 9 1 10 none = 0 ∧
    ¬ (calculate_position_size ⟨-1000, limits0⟩ 10 9 1 10 none
        ≤ min (min limits0.max_contracts_per_trade
            ⌊limits0.max_risk_per_trade / ((|(10 : ℚ) - 9| / 1) * 10)⌋)
          ⌊((-1000 : ℚ) * (limits0.risk_per_trade_pct / 100)) / ((|(10 : ℚ) - 9| / 1) * 10)⌋) := by
  constructor
  · norm_num [calculate_position_size, pyInt, limits0, Int.ceil_le]
  · norm_num [calculate_position_size, pyInt, limits0, Int.ceil_le]

/-- C4 (amended): under non-negative account balance, validated limits,
non-negative contract caps, and positive tick data, the claimed bound
holds: the result is at most each of the three caps (with true floors)
and the override; independently of those hypotheses the result is never
negative and is exactly 0 when entry equals stop. -/
theorem position_size_bound_amended :
    (∀ (sizer : PositionSizer) (entry_price stop_loss tick_size tick_value : ℚ)
        (max_contracts : Option ℤ),
      0 < tick_size → 0 < tick_value →
      0 ≤ sizer.account_balance →
      sizer.risk_limits.Valid →
      0 ≤ sizer.risk_limits.max_contracts_per_trade →
      entry_price ≠ stop_loss →
      (∀ m, max_contracts = some m → 0 ≤ m) →
      calculate_position_size sizer entry_price stop_loss tick_size tick_value max_contracts
          ≤ sizer.risk_limits.max_contracts_per_trade ∧
      calculate_position_size sizer entry_price stop_loss tick_size tick_value max_contracts
          ≤ ⌊sizer.risk_limits.max_risk_per_trade
              / ((|entry_price - stop_loss| / tick_size) * tick_value)⌋ ∧
      calculate_position_size sizer entry_price stop_loss tick_size tick_value max_contracts
          ≤ ⌊sizer.account_balance * (sizer.risk_limits.risk_per_trade_pct / 100)
              / ((|entry_price - stop_loss| / tick_size) * tick_value)⌋ ∧
      (∀ m, max_contracts = some m →
        calculate_position_size sizer entry_price stop_loss tick_size tick_value max_contracts ≤ m)) ∧
    (∀ (sizer : PositionSizer) (e tick_size tick_value : ℚ) (mc : Option ℤ),
      calculate_position_size sizer e e tick_size tick_value mc = 0) ∧
    (∀ (sizer : PositionSizer) (entry_price stop_loss tick_size tick_value : ℚ) (mc : Option ℤ),
      0 ≤ calculate_position_size sizer entry_price stop_loss tick_size tick_value mc) := by
  refine ⟨?_, ?_, ?_⟩
  · intro sizer e st ts tv mc hts htv hbal hvalid hmcp hne hov
    obtain ⟨hmr, -, hpct, -⟩ := hvalid
    have hpts : (0 : ℚ) < |e - st| := abs_pos.mpr (sub_ne_zero.mpr hne)
    have hrpc : (0 : ℚ) < (|e - st| / ts) * tv := mul_pos (div_pos hpts hts) htv
    have h1 : (0 : ℚ) ≤ sizer.risk_limits.max_risk_per_trade / ((|e - st| / ts) * tv) :=
      (div_pos hmr hrpc).le
    have h2 : (0 : ℚ) ≤ sizer.account_balance * (sizer.risk_limits.risk_per_trade_pct / 100)
        / ((|e - st| / ts) * tv) :=
      div_nonneg (mul_nonneg hbal (div_nonneg hpct.le (by norm_num))) hrpc.le
    have e1 : pyInt (sizer.risk_limits.max_risk_per_trade / ((|e - st| / ts) * tv))
        = ⌊sizer.risk_limits.max_risk_per_trade / ((|e - st| / ts) * tv)⌋ := if_pos h1
    have e2 : pyInt (sizer.account_balance * (sizer.risk_limits.risk_per_trade_pct / 100)
          / ((|e - st| / ts) * tv))
        = ⌊sizer.account_balance * (sizer.risk_limits.risk_per_trade_pct / 100)
            / ((|e - st| / ts) * tv)⌋ := if_pos h2
    have f1 : 0 ≤ ⌊sizer.risk_limits.max_risk_per_trade / ((|e - st| / ts) * tv)⌋ :=
      Int.floor_nonneg.mpr h1
    have f2 : 0 ≤ ⌊sizer.account_balance * (sizer.risk_limits.risk_per_trade_pct / 100)
        / ((|e - st| / ts) * tv)⌋ :=
      Int.floor_nonneg.mpr h2
    rw [calculate_position_size_eq sizer e st ts tv mc (by exact ne_of_gt hpts)]
    cases mc with
    | none =>
      rw [e1, e2, max_eq_right (le_min (le_min f1 f2) hmcp)]
      exact ⟨min_le_right _ _,
        le_trans (min_le_left _ _) (min_le_left _ _),
        le_trans (min_le_left _ _) (min_le_right _ _),
        fun m hm => Option.noConfusion hm⟩
    | some m =>
      have hm0 : 0 ≤ m := hov m rfl
      rw [e1, e2, max_eq_right (le_min (le_min (le_min f1 f2) hmcp) hm0)]
      refine ⟨le_trans (min_le_left _ _) (min_le_right _ _),
        le_trans (min_le_left _ _) (le_trans (min_le_left _ _) (min_le_left _ _)),
        le_trans (min_le_left _ _) (le_trans (min_le_left _ _) (min_le_right _ _)),
        fun m' hm' => ?_⟩
      cases hm'
      exact min_le_right _ _
  · intro sizer e ts tv mc
    simp [calculate_position_size]
  · intro sizer e st ts tv mc
    unfold calculate_position_size
    dsimp only
    split
    · exact le_refl 0
    · exact le_max_left 0 _

/-- The spec scenario limits: max_risk_per_trade = 200, pct = 2. -/
def limitsSpec : RiskLimits :=
  ⟨3, 10, 5, 200, 500, 2000, none, none, 2, 10, none, none, 3, 300⟩

/-- The spec scenario sizer: balance 50000 with `limitsSpec`. -/
def sizerSpec : PositionSizer := ⟨50000, limitsSpec⟩

/-- C4 witness: the amended bound at the spec scenario — entry 4500, stop
4492, tick 1/4, tick value 12.5 (risk 400 dollars per contract). -/
theorem position_size_bound_amended_witness :
    calculate_position_size sizerSpec 4500 4492 (1 / 4) (25 / 2) none
        ≤ sizerSpec.risk_limits.max_contracts_per_trade ∧
    calculate_position_size sizerSpec 4500 4492 (1 / 4) (25 / 2) none
        ≤ ⌊sizerSpec.risk_limits.max_risk_per_trade
            / ((|(4500 : ℚ) - 4492| / (1 / 4)) * (25 / 2))⌋ ∧
    calculate_position_size sizerSpec 4500 4492 (1 / 4) (25 / 2) none
        ≤ ⌊sizerSpec.account_balance * (sizerSpec.risk_limits.risk_per_trade_pct / 100)
            / ((|(4500 : ℚ) - 4492| / (1 / 4)) * (25 / 2))⌋ ∧
    (∀ m, (none : Option ℤ) = some m →
      calculate_position_size sizerSpec 4500 4492 (1 / 4) (25 / 2) none ≤ m) :=
  position_size_bound_amended.1 sizerSpec 4500 4492 (1 / 4) (25 / 2) none
    (by norm_num) (by norm_num)
    (by norm_num [sizerSpec])
    (by constructor <;> norm_num [sizerSpec, limitsSpec, RiskLimits.Valid])
    (by norm_num [sizerSpec, limitsSpec])
    (by norm_num)
    (fun m hm => Option.noConfusion hm)
